import Mathlib

/-!
Verification of the coverage-aggregation pipeline of the Conectividade
repository (two variants: `conectividade.py`, the parquet / Power BI
methodology, and `Conectividade.py`, the CSV-cache dashboard).

Modelling conventions (shallow embedding):
* pandas DataFrames are `List` of records; a column is a record field.
* Municipality and school codes are `Nat`.  Both variants coerce the key
  column to a single representation before joining
  (`astype(str).str.strip()` in the parquet variant, `pd.to_numeric` in the
  CSV variant); each variant is internally consistent, so the coercion is
  modelled as the identity on already-canonical numeric keys.
* Python floats are modelled as `ℚ`.  `numpy`'s `.round(2)` is
  round-half-to-even on the value scaled by 100 (modelled exactly on `ℚ`;
  it is only ever applied to nonnegative percentages here).
* `str.upper()` is modelled by `String.toUpper` (ASCII case mapping); every
  concrete label used in a theorem below is pure ASCII, where the two
  agree.
* `drop_duplicates` keeps the first occurrence of each key, modelled by
  `dedupBy`.  Counting `nunique` only needs the set of values, modelled by
  `List.dedup.length`.
-/

/-- Python `str.upper()` (ASCII case mapping, character by character). -/
def pyUpper (s : String) : String := String.mk (s.toList.map Char.toUpper)

/-- All suffixes of a list of characters (used for substring search). -/
def caudas : List Char → List (List Char)
  | [] => [[]]
  | c :: t => (c :: t) :: caudas t

/-- Predicate `isPre pat l` is true when `pat` starts `l`. -/
def isPre : List Char → List Char → Bool
  | [], _ => true
  | _ :: _, [] => false
  | a :: as, b :: bs => a == b && isPre as bs

/-- Embedding of `pandas.Series.str.contains(pat)` for a plain (regex-free) pattern:
substring containment. -/
def strContains (s pat : String) : Bool :=
  (caudas s.toList).any (fun t => isPre pat.toList t)

/-- Auxiliary recursion for `dedupBy`: `seen` is the list of keys already
emitted. -/
def dedupByAux {α κ : Type} [DecidableEq κ] (key : α → κ) :
    List κ → List α → List α
  | _, [] => []
  | seen, x :: xs =>
    if key x ∈ seen then dedupByAux key seen xs
    else x :: dedupByAux key (key x :: seen) xs

/-- Embedding of `DataFrame.drop_duplicates(subset=key)`: keep the first row for each
key value, in order. -/
def dedupBy {α κ : Type} [DecidableEq κ] (key : α → κ) (l : List α) :
    List α :=
  dedupByAux key [] l

/-- One row of the raw SIMET dataset (columns used by the pipeline). -/
structure RawRecord where
  co_municipio : Nat
  co_entidade : Nat
  tp_dependencia : String
  in_internet : String
  status : String
deriving DecidableEq

/-- One row of the municipality registry ("Lista Única"): the four columns
the pipelines project out. -/
structure RegistryRow where
  uf : String
  municipio : String
  co_municipio : Nat
  regiao : String
deriving DecidableEq

namespace Parquet

/-- Constant `RETRIES = 3` of `conectividade.py`. -/
def RETRIES : Nat := 3

/-- Constant `TIMEOUT = 120` of `conectividade.py` (request timeout, seconds). -/
def TIMEOUT : Nat := 120

/-- The message of the `RuntimeError` raised by `carregar_api` after the
retry budget is exhausted (the spec's `UnavailableSource`). -/
def erroAPI : String := "Erro ao acessar a API SIMET"

/-- Result of a fetch: the dataset or the raised error, together with how
many times `time.sleep(3)` ran (one fixed delay per failed attempt). -/
structure FetchOut where
  result : Except String (List RawRecord)
  sleeps : Nat

/-- The retry loop of `carregar_api`: `net k` is the outcome of the `k`-th
network attempt (`none` = transport or parse failure), the second argument
is the number of attempts left.  On each failure the code sleeps the fixed
delay and retries; after the last attempt it raises `erroAPI`. -/
def tentativas (net : Nat → Option (List RawRecord)) :
    Nat → Nat → FetchOut
  | _, 0 => ⟨Except.error erroAPI, 0⟩
  | k, n + 1 =>
    match net k with
    | some df => ⟨Except.ok df, 0⟩
    | none =>
      let rest := tentativas net (k + 1) n
      ⟨rest.result, rest.sleeps + 1⟩

/-- Function `carregar_api(forcar)`: if the parquet cache exists and no refresh is
forced, return it without touching the network; otherwise run the retry
loop.  (Writing the fresh dataset back to the cache is a side effect not
needed by the claims.) -/
def carregar_api (cache : Option (List RawRecord)) (forcar : Bool)
    (net : Nat → Option (List RawRecord)) : FetchOut :=
  match cache, forcar with
  | some df, false => ⟨Except.ok df, 0⟩
  | none, _ => tentativas net 0 RETRIES
  | some _, true => tentativas net 0 RETRIES

/-- Function `carregar_lista`: read the registry sheet and
`drop_duplicates(subset=[COL_MUN])` (keep first). -/
def carregar_lista (lista : List RegistryRow) : List RegistryRow :=
  dedupBy RegistryRow.co_municipio lista

/-- The `base` DataFrame of `processar_powerbi`: raw rows with
`tp_dependencia == "Municipal"` and `in_internet == "Sim"` (verbatim string
equality — this variant does not normalise labels), restricted to
municipality codes occurring in the registry (`isin`). -/
def base (df_api : List RawRecord) (df_lista : List RegistryRow) :
    List RawRecord :=
  (df_api.filter
      (fun r => r.tp_dependencia == "Municipal" && r.in_internet == "Sim")).filter
    (fun r => df_lista.any (fun l => l.co_municipio == r.co_municipio))

/-- Denominator: `base.groupby("co_municipio")["co_entidade"].nunique()`
at municipality `m`. -/
def Qtd_Escolas (b : List RawRecord) (m : Nat) : Nat :=
  ((b.filter (fun r => r.co_municipio == m)).map RawRecord.co_entidade).dedup.length

/-- Numerator: distinct schools of `m` having at least one row with
`status == "ativo"` (`base[base["status"] == "ativo"]` then
`groupby.nunique`, missing municipalities filled with 0). -/
def Qtd_Escolas_Ativas (b : List RawRecord) (m : Nat) : Nat :=
  ((b.filter (fun r => r.co_municipio == m && r.status == "ativo")).map
      RawRecord.co_entidade).dedup.length

/-- The tier function `faixa` of `processar_powerbi`, on the unrounded
ratio. -/
def faixa (p : ℚ) : String :=
  if p = 1 then "100%"
  else if 0.8 ≤ p then "80% - 99%"
  else if 0.7 ≤ p then "70% - 79%"
  else if 0.5 ≤ p then "50% - 69%"
  else if 0 < p then "<50%"
  else "0%"

/-- One row of the `df_mun` output table (the registry attributes merged in
at the end are omitted: they do not affect any claim). -/
structure MunRow where
  co_municipio : Nat
  Qtd_Escolas : Nat
  Qtd_Escolas_Ativas : Nat
  Perc_Escolas_Ativas : ℚ
  Faixa_Cobertura : String
deriving DecidableEq

/-- Function `processar_powerbi`: filter, restrict to the registry, group by
municipality, count distinct schools and distinct active schools, ratio,
tier. -/
def processar_powerbi (df_api : List RawRecord)
    (df_lista : List RegistryRow) : List MunRow :=
  let b := base df_api df_lista
  ((b.map RawRecord.co_municipio).dedup).map fun m =>
    let q := Qtd_Escolas b m
    let a := Qtd_Escolas_Ativas b m
    let p := (a : ℚ) / (q : ℚ)
    ⟨m, q, a, p, faixa p⟩

/-- Subset `municipios_70_mais = df_mun[df_mun["Perc_Escolas_Ativas"] >= 0.7]`:
the ≥ 70 % subset, on the unrounded ratio. -/
def municipios_70_mais (rows : List MunRow) : List MunRow :=
  rows.filter (fun r => decide ((0.7 : ℚ) ≤ r.Perc_Escolas_Ativas))

end Parquet

namespace CsvCache

/-- Embedding of `df_api["tp_dependencia"].astype(str).str.upper()` (no synonym table
and no accent stripping for this column). -/
def tp_dependencia_norm (s : String) : String := pyUpper s

/-- Column `in_internet_norm`: uppercase, then the synonym replace table
`{YES → SIM, Y → SIM, TRUE → SIM}`. -/
def in_internet_norm (s : String) : String :=
  let u := pyUpper s
  if u = "YES" then "SIM"
  else if u = "Y" then "SIM"
  else if u = "TRUE" then "SIM"
  else u

/-- Column `status_norm`: uppercase, then the synonym replace table
`{INSTALADO → ATIVO, INSTALLED → ATIVO, ACTIVE → ATIVO, TRUE → ATIVO}`. -/
def status_norm (s : String) : String :=
  let u := pyUpper s
  if u = "INSTALADO" then "ATIVO"
  else if u = "INSTALLED" then "ATIVO"
  else if u = "ACTIVE" then "ATIVO"
  else if u = "TRUE" then "ATIVO"
  else u

/-- Filter `df_filtrado`: rows whose normalised dependency *contains* the
substring `MUNICIPAL` and whose normalised internet flag equals `SIM`. -/
def df_filtrado (df : List RawRecord) : List RawRecord :=
  df.filter fun r =>
    strContains (tp_dependencia_norm r.tp_dependencia) "MUNICIPAL" &&
      (in_internet_norm r.in_internet == "SIM")

/-- Key `id_escola_unica = str(co_municipio) + "_" + str(co_entidade)`,
modelled as the pair of numeric codes (the encodings are in bijection for
numeric codes). -/
def id_escola (r : RawRecord) : Nat × Nat := (r.co_municipio, r.co_entidade)

/-- Table `df_unicas = df_filtrado.drop_duplicates(subset="id_escola_unica")`:
keeps the FIRST row of each school. -/
def df_unicas (df : List RawRecord) : List RawRecord :=
  dedupBy id_escola df

/-- Function `carregar_lista_unica`: reads the registry CSV, strips the BOM and
coerces the key column (`pd.to_numeric`, modelled as the identity on
numeric keys).  It performs NO deduplication. -/
def carregar_lista_unica (lista : List RegistryRow) : List RegistryRow :=
  lista

/-- Slice `df_lista_red = df_lista[["UF","Município","co_municipio","Regiao"]]
.drop_duplicates()`: whole-row deduplication of the four projected columns
(NOT deduplication by `co_municipio`). -/
def df_lista_red (lista : List RegistryRow) : List RegistryRow :=
  dedupBy (fun l => l) (carregar_lista_unica lista)

/-- Join `df_final = df_unicas.merge(df_lista_red, on="co_municipio",
how="inner")`: every (school row, registry row) pair agreeing on the
municipality code. -/
def df_final : List RawRecord → List RegistryRow →
    List (RawRecord × RegistryRow)
  | [], _ => []
  | r :: rs, lred =>
    (lred.filter (fun l => l.co_municipio == r.co_municipio)).map
        (fun l => (r, l)) ++ df_final rs lred

/-- The `groupby(["UF", "Município", "co_municipio"])` key of a joined
row. -/
def chave (p : RawRecord × RegistryRow) : String × String × Nat :=
  (p.2.uf, p.2.municipio, p.2.co_municipio)

/-- Round-half-to-even to an integer (numpy `rint`; only ever applied to
nonnegative values in this pipeline, where `Rat.floor` via integer
division is the mathematical floor). -/
def roundHalfEven (q : ℚ) : ℤ :=
  let f := ⌊q⌋
  let r := q - (f : ℚ)
  if r < 1 / 2 then f
  else if 1 / 2 < r then f + 1
  else if f % 2 = 0 then f else f + 1

/-- Embedding of `Series.round(2)`. -/
def round2 (x : ℚ) : ℚ := ((roundHalfEven (x * 100) : ℤ) : ℚ) / 100

/-- Column `temp["percentual"] = (escolas_ativas / total_escolas * 100).round(2)`. -/
def percentual (ativas total : Nat) : ℚ :=
  round2 ((ativas : ℚ) / (total : ℚ) * 100)

/-- One row of the aggregated `temp` table. -/
structure TempRow where
  uf : String
  municipio : String
  co_municipio : Nat
  total_escolas : Nat
  escolas_ativas : Nat
  percentual : ℚ
deriving DecidableEq

/-- The `temp` aggregation: `df_final.groupby(["UF","Município",
"co_municipio"]).agg(total_escolas=("id_escola_unica","nunique"),
escolas_ativas=("status_norm", lambda s: (s == "ATIVO").sum()))` followed
by the rounded percentage.  Note `escolas_ativas` counts ROWS whose kept
representative has status `ATIVO`. -/
def temp (df : List RawRecord) (lista : List RegistryRow) : List TempRow :=
  let fin := df_final (df_unicas (df_filtrado df)) (df_lista_red lista)
  ((fin.map chave).dedup).map fun k =>
    let g := fin.filter (fun p => chave p == k)
    let tot := ((g.map (fun p => id_escola p.1)).dedup).length
    let atv := (g.filter (fun p => status_norm p.1.status == "ATIVO")).length
    ⟨k.1, k.2.1, k.2.2, tot, atv, percentual atv tot⟩

/-- Subset `mun_50 = temp[temp["percentual"] >= 50]`. -/
def mun_50 (t : List TempRow) : List TempRow :=
  t.filter (fun x => decide ((50 : ℚ) ≤ x.percentual))

/-- Subset `mun_70 = temp[temp["percentual"] >= 70]`. -/
def mun_70 (t : List TempRow) : List TempRow :=
  t.filter (fun x => decide ((70 : ℚ) ≤ x.percentual))

/-- Subset `mun_80 = temp[temp["percentual"] >= 80]`. -/
def mun_80 (t : List TempRow) : List TempRow :=
  t.filter (fun x => decide ((80 : ℚ) ≤ x.percentual))

/-- Subset `mun_100 = temp[temp["percentual"] == 100]`. -/
def mun_100 (t : List TempRow) : List TempRow :=
  t.filter (fun x => decide (x.percentual = (100 : ℚ)))

end CsvCache

/-! Concrete records used by the evaluation theorems and witnesses. -/

/-- A measurement row for school 5001 of municipality 1100, device not yet
active. -/
def medInativa : RawRecord := ⟨1100, 5001, "Municipal", "Sim", "inativo"⟩

/-- A second measurement row for the same school, device active. -/
def medAtiva : RawRecord := ⟨1100, 5001, "Municipal", "Sim", "ativo"⟩

/-- Registry entry for municipality 1100. -/
def regM1 : RegistryRow := ⟨"RO", "CidadeM", 1100, "Norte"⟩

/-- Two registry rows sharing the code 2927 but spelling the municipality
name differently (a duplicate-key data-quality hazard). -/
def regB1 : RegistryRow := ⟨"BA", "CidadeA", 2927, "NE"⟩

/-- Second registry row with code 2927 (name spelled differently). -/
def regB2 : RegistryRow := ⟨"BA", "CidadeB", 2927, "NE"⟩

/-- Two registry rows with the code 2900 differing only in the region
column. -/
def regC1 : RegistryRow := ⟨"BA", "CidadeC", 2900, "NE"⟩

/-- Second registry row with code 2900 (region spelled differently). -/
def regC2 : RegistryRow := ⟨"BA", "CidadeC", 2900, "Nordeste"⟩

/-- One active eligible school in municipality 2900. -/
def medC : RawRecord := ⟨2900, 777, "Municipal", "Sim", "ativo"⟩

/-- A raw row whose dependency label is the unrecognised
`"Intermunicipal"`. -/
def medIM : RawRecord := ⟨1100, 77, "Intermunicipal", "Sim", "ativo"⟩

/-- An aggregated row with 6999 of 10000 schools active (exact ratio
0.6999, rounded percentage 69.99). -/
def tRow6999 : CsvCache.TempRow :=
  ⟨"BA", "CidadeX", 2905, 10000, 6999, CsvCache.percentual 6999 10000⟩

/-- An aggregated row with 17499 of 25000 schools active (exact ratio
0.69996, rounded percentage 70.00). -/
def tRow17499 : CsvCache.TempRow :=
  ⟨"BA", "CidadeY", 2906, 25000, 17499, CsvCache.percentual 17499 25000⟩

/-- The parquet-variant row for the same 17499-of-25000 municipality
(unrounded ratio). -/
def mRow17499 : Parquet.MunRow :=
  ⟨2906, 25000, 17499, (17499 : ℚ) / 25000, Parquet.faixa ((17499 : ℚ) / 25000)⟩

/-! Helper lemmas about `dedupBy` (pandas `drop_duplicates`, keep first). -/

theorem mem_of_mem_dedupByAux {α κ : Type} [DecidableEq κ] (key : α → κ) :
    ∀ (l : List α) (seen : List κ) (x : α),
      x ∈ dedupByAux key seen l → x ∈ l := by
  intro l
  induction l with
  | nil => intro seen x hx; simp [dedupByAux] at hx
  | cons a t ih =>
    intro seen x hx
    rw [dedupByAux] at hx
    by_cases h : key a ∈ seen
    · rw [if_pos h] at hx
      exact List.mem_cons_of_mem _ (ih seen x hx)
    · rw [if_neg h] at hx
      rcases List.mem_cons.mp hx with h1 | h1
      · exact h1 ▸ List.mem_cons_self _ _
      · exact List.mem_cons_of_mem _ (ih _ x h1)

theorem mem_of_mem_dedupBy {α κ : Type} [DecidableEq κ] (key : α → κ)
    (l : List α) (x : α) (hx : x ∈ dedupBy key l) : x ∈ l :=
  mem_of_mem_dedupByAux key l [] x hx

theorem dedupByAux_keys_nodup {α κ : Type} [DecidableEq κ] (key : α → κ) :
    ∀ (l : List α) (seen : List κ),
      ((dedupByAux key seen l).map key).Nodup ∧
        ∀ k ∈ (dedupByAux key seen l).map key, k ∉ seen := by
  intro l
  induction l with
  | nil => intro seen; simp [dedupByAux]
  | cons a t ih =>
    intro seen
    rw [dedupByAux]
    by_cases h : key a ∈ seen
    · rw [if_pos h]; exact ih seen
    · rw [if_neg h]
      obtain ⟨hnd, hout⟩ := ih (key a :: seen)
      refine ⟨?_, ?_⟩
      · rw [List.map_cons, List.nodup_cons]
        exact ⟨fun hmem => (hout _ hmem) (List.mem_cons_self _ _), hnd⟩
      · intro k hk
        rw [List.map_cons, List.mem_cons] at hk
        rcases hk with h1 | h1
        · rw [h1]; exact h
        · intro hkseen
          exact (hout _ h1) (List.mem_cons_of_mem _ hkseen)

theorem dedupBy_keys_nodup {α κ : Type} [DecidableEq κ] (key : α → κ)
    (l : List α) : ((dedupBy key l).map key).Nodup :=
  (dedupByAux_keys_nodup key l []).1

theorem nodup_of_length_le_one {α : Type} {l : List α} (h : l.length ≤ 1) :
    l.Nodup := by
  match l with
  | [] => exact List.nodup_nil
  | [a] => exact List.nodup_singleton a
  | a :: b :: t => simp [List.length_cons] at h

/-! Helper lemmas about the CSV-cache variant inner join. -/

theorem mem_df_final (U : List RawRecord) (lred : List RegistryRow)
    (p : RawRecord × RegistryRow) :
    p ∈ CsvCache.df_final U lred ↔
      p.1 ∈ U ∧ p.2 ∈ lred ∧ p.2.co_municipio = p.1.co_municipio := by
  induction U with
  | nil => simp [CsvCache.df_final]
  | cons r rs ih =>
    rw [CsvCache.df_final, List.mem_append, ih]
    constructor
    · rintro (h | ⟨h1, h2, h3⟩)
      · rcases List.mem_map.mp h with ⟨l, hl, hpl⟩
        rcases List.mem_filter.mp hl with ⟨hl1, hl2⟩
        rw [← hpl]
        refine ⟨List.mem_cons_self _ _, hl1, ?_⟩
        simpa using hl2
      · exact ⟨List.mem_cons_of_mem _ h1, h2, h3⟩
    · rintro ⟨h1, h2, h3⟩
      rcases List.mem_cons.mp h1 with h1 | h1
      · left
        refine List.mem_map.mpr ⟨p.2, List.mem_filter.mpr ⟨h2, ?_⟩, ?_⟩
        · simp [h3, h1]
        · rw [← h1]
      · right; exact ⟨h1, h2, h3⟩

theorem filter_code_length_le_one (lred : List RegistryRow)
    (h : (lred.map RegistryRow.co_municipio).Nodup) (c : Nat) :
    (lred.filter (fun l => l.co_municipio == c)).length ≤ 1 := by
  induction lred with
  | nil => simp
  | cons l ls ih =>
    rw [List.map_cons, List.nodup_cons] at h
    obtain ⟨hnot, hnd⟩ := h
    by_cases hc : l.co_municipio = c
    · rw [List.filter_cons_of_pos (by simpa using hc)]
      have hnil : ls.filter (fun l2 => l2.co_municipio == c) = [] := by
        rw [List.filter_eq_nil_iff]
        intro l2 hl2
        simp only [beq_iff_eq]
        intro hcc
        exact hnot (List.mem_map.mpr ⟨l2, hl2, by rw [hcc, hc]⟩)
      rw [hnil]
      simp
    · rw [List.filter_cons_of_neg (by simpa using hc)]
      exact ih hnd

theorem df_final_map_id_nodup (U : List RawRecord) (lred : List RegistryRow)
    (hU : (U.map CsvCache.id_escola).Nodup)
    (hlred : (lred.map RegistryRow.co_municipio).Nodup) :
    ((CsvCache.df_final U lred).map (fun p => CsvCache.id_escola p.1)).Nodup := by
  induction U with
  | nil => simp [CsvCache.df_final]
  | cons r rs ih =>
    rw [List.map_cons, List.nodup_cons] at hU
    obtain ⟨hrnot, hU2⟩ := hU
    rw [CsvCache.df_final, List.map_append]
    refine List.Nodup.append ?_ (ih hU2) ?_
    · rw [List.map_map]
      apply nodup_of_length_le_one
      rw [List.length_map]
      exact filter_code_length_le_one lred hlred _
    · intro x hx1 hx2
      rw [List.map_map] at hx1
      rcases List.mem_map.mp hx1 with ⟨l, _, hxl⟩
      rcases List.mem_map.mp hx2 with ⟨p, hp, hxp⟩
      rcases (mem_df_final rs lred p).mp hp with ⟨hp1, _, _⟩
      apply hrnot
      refine List.mem_map.mpr ⟨p.1, hp1, ?_⟩
      rw [hxp, ← hxl]
      rfl

/-! Bounds on the per-municipality counts. -/

theorem parquet_ativas_le_qtd (b : List RawRecord) (m : Nat) :
    Parquet.Qtd_Escolas_Ativas b m ≤ Parquet.Qtd_Escolas b m := by
  rw [Parquet.Qtd_Escolas_Ativas, Parquet.Qtd_Escolas]
  have hsub :
      ((b.filter (fun r => r.co_municipio == m && r.status == "ativo")).map
          RawRecord.co_entidade).dedup ⊆
        ((b.filter (fun r => r.co_municipio == m)).map
          RawRecord.co_entidade).dedup := by
    intro x hx
    rw [List.mem_dedup] at hx ⊢
    rcases List.mem_map.mp hx with ⟨r, hr, hre⟩
    rcases List.mem_filter.mp hr with ⟨hrb, hcond⟩
    rw [Bool.and_eq_true] at hcond
    exact List.mem_map.mpr ⟨r, List.mem_filter.mpr ⟨hrb, hcond.1⟩, hre⟩
  exact ((List.nodup_dedup _).subperm hsub).length_le

theorem parquet_qtd_pos (b : List RawRecord) (m : Nat) (r : RawRecord)
    (hr : r ∈ b) (hm : r.co_municipio = m) : 0 < Parquet.Qtd_Escolas b m := by
  rw [Parquet.Qtd_Escolas]
  apply List.length_pos_of_mem (a := r.co_entidade)
  rw [List.mem_dedup]
  exact List.mem_map.mpr ⟨r, List.mem_filter.mpr ⟨hr, by simp [hm]⟩, rfl⟩

theorem temp_ativas_le_total (df : List RawRecord) (lista : List RegistryRow)
    (hND : ((CsvCache.df_lista_red lista).map RegistryRow.co_municipio).Nodup) :
    ∀ t ∈ CsvCache.temp df lista, t.escolas_ativas ≤ t.total_escolas := by
  intro t ht
  simp only [CsvCache.temp] at ht
  obtain ⟨k, hk, hkt⟩ := List.mem_map.mp ht
  rw [← hkt]
  have hfin :
      ((CsvCache.df_final (CsvCache.df_unicas (CsvCache.df_filtrado df))
            (CsvCache.df_lista_red lista)).map
          (fun p => CsvCache.id_escola p.1)).Nodup :=
    df_final_map_id_nodup _ _ (dedupBy_keys_nodup CsvCache.id_escola _) hND
  have hg :
      (((CsvCache.df_final (CsvCache.df_unicas (CsvCache.df_filtrado df))
              (CsvCache.df_lista_red lista)).filter
            (fun p => CsvCache.chave p == k)).map
          (fun p => CsvCache.id_escola p.1)).Nodup :=
    ((List.filter_sublist _).map _).nodup hfin
  show List.length _ ≤ List.length (List.dedup _)
  rw [List.dedup_eq_self.mpr hg, List.length_map]
  exact List.length_filter_le _ _

/-! Unfolding lemmas for the retry loop of `carregar_api`. -/

theorem tentativas_error_iff (net : Nat → Option (List RawRecord)) :
    ∀ (n k : Nat),
      ((Parquet.tentativas net k n).result = Except.error Parquet.erroAPI ↔
        ∀ i < n, net (k + i) = none) := by
  intro n
  induction n with
  | zero => intro k; simp [Parquet.tentativas]
  | succ n ih =>
    intro k
    rw [Parquet.tentativas]
    cases hnk : net k with
    | some df =>
      constructor
      · intro h; simp at h
      · intro h
        have h0 := h 0 (Nat.succ_pos n)
        rw [Nat.add_zero, hnk] at h0
        simp at h0
    | none =>
      show (Parquet.tentativas net (k + 1) n).result = _ ↔ _
      rw [ih (k + 1)]
      constructor
      · intro h i hi
        cases i with
        | zero => rw [Nat.add_zero]; exact hnk
        | succ j =>
          have hj := h j (by omega)
          rw [show k + 1 + j = k + (j + 1) by omega] at hj
          exact hj
      · intro h i hi
        have hj := h (i + 1) (by omega)
        rw [show k + (i + 1) = k + 1 + i by omega] at hj
        exact hj

theorem tentativas_sleeps (net : Nat → Option (List RawRecord)) :
    ∀ (n k : Nat), (∀ i < n, net (k + i) = none) →
      (Parquet.tentativas net k n).sleeps = n := by
  intro n
  induction n with
  | zero => intro k _; rfl
  | succ n ih =>
    intro k h
    rw [Parquet.tentativas]
    have h0 := h 0 (Nat.succ_pos n)
    rw [Nat.add_zero] at h0
    rw [h0]
    show (Parquet.tentativas net (k + 1) n).sleeps + 1 = n + 1
    rw [ih (k + 1) ?_]
    intro i hi
    have hj := h (i + 1) (by omega)
    rw [show k + (i + 1) = k + 1 + i by omega] at hj
    exact hj

theorem tentativas_ok (net : Nat → Option (List RawRecord)) :
    ∀ (n k : Nat) (d : List RawRecord),
      (Parquet.tentativas net k n).result = Except.ok d →
      ∃ i, i < n ∧ net (k + i) = some d ∧ ∀ j < i, net (k + j) = none := by
  intro n
  induction n with
  | zero => intro k d h; simp [Parquet.tentativas] at h
  | succ n ih =>
    intro k d h
    rw [Parquet.tentativas] at h
    cases hnk : net k with
    | some df =>
      rw [hnk] at h
      simp only [Except.ok.injEq] at h
      refine ⟨0, Nat.succ_pos n, ?_, ?_⟩
      · rw [Nat.add_zero, hnk, h]
      · intro j hj; exact absurd hj (Nat.not_lt_zero j)
    | none =>
      rw [hnk] at h
      obtain ⟨i, hi, hsome, hnone⟩ := ih (k + 1) d h
      refine ⟨i + 1, by omega, ?_, ?_⟩
      · rw [show k + (i + 1) = k + 1 + i by omega]; exact hsome
      · intro j hj
        cases j with
        | zero => rw [Nat.add_zero]; exact hnk
        | succ j2 =>
          have hj2 := hnone j2 (by omega)
          rw [show k + (j2 + 1) = k + 1 + j2 by omega]
          exact hj2

/-! Theorems settling the claims. -/

/-- C1: at the spec's end-to-end example — two raw rows for the same school
of municipality 1100, the `device_active=false` row first, the
`device_active=true` row second, registry containing 1100 — the parquet
variant (`processar_powerbi`) collapses them to one eligible school that
counts as active: total 1, active 1, ratio 1, tier `100%`, exactly as the
claim states.  The CSV-cache variant instead keeps only the FIRST row per
school id (`drop_duplicates`) and counts that row's status, reporting 1
total and 0 active schools — the code bug the claim exposes. -/
theorem C1_dedup_eval :
    Parquet.processar_powerbi [medInativa, medAtiva] [regM1] =
      [⟨1100, 1, 1, 1, "100%"⟩]
    ∧ (CsvCache.temp [medInativa, medAtiva] [regM1]).map
        (fun t => (t.total_escolas, t.escolas_ativas)) = [(1, 0)] := by
  constructor
  · have hkeys :
        ((Parquet.base [medInativa, medAtiva] [regM1]).map
            RawRecord.co_municipio).dedup = [1100] := by decide
    have hq :
        Parquet.Qtd_Escolas (Parquet.base [medInativa, medAtiva] [regM1])
          1100 = 1 := by decide
    have ha :
        Parquet.Qtd_Escolas_Ativas
          (Parquet.base [medInativa, medAtiva] [regM1]) 1100 = 1 := by decide
    simp only [Parquet.processar_powerbi]
    rw [hkeys, List.map_cons, List.map_nil, hq, ha]
    norm_num [Parquet.faixa]
  · decide

/-- C2: the tier brackets of `faixa` are evaluated in strict descending
order with inclusive lower bounds — `p = 1` gives `100%`, `0.8 ≤ p ≠ 1`
gives `80% - 99%`, `0.7 ≤ p < 0.8` gives `70% - 79%`, `0.5 ≤ p < 0.7`
gives `50% - 69%`, `0 < p < 0.5` gives `<50%`, `p = 0` gives `0%`; in
particular the ratio exactly 7/10 is classified `70% - 79%`. -/
theorem C2_faixa (p : ℚ) :
    (p = 1 → Parquet.faixa p = "100%")
    ∧ (0.8 ≤ p → p ≠ 1 → Parquet.faixa p = "80% - 99%")
    ∧ (0.7 ≤ p → p < 0.8 → Parquet.faixa p = "70% - 79%")
    ∧ (0.5 ≤ p → p < 0.7 → Parquet.faixa p = "50% - 69%")
    ∧ (0 < p → p < 0.5 → Parquet.faixa p = "<50%")
    ∧ (p = 0 → Parquet.faixa p = "0%")
    ∧ Parquet.faixa (7 / 10) = "70% - 79%" := by
  refine ⟨?_, ?_, ?_, ?_, ?_, ?_, ?_⟩
  · intro h
    rw [Parquet.faixa, if_pos h]
  · intro h1 h2
    rw [Parquet.faixa, if_neg h2, if_pos h1]
  · intro h1 h2
    rw [Parquet.faixa, if_neg (by rintro rfl; norm_num at h2),
      if_neg (not_le.mpr h2), if_pos h1]
  · intro h1 h2
    rw [Parquet.faixa, if_neg (by rintro rfl; norm_num at h2),
      if_neg (not_le.mpr (h2.trans (by norm_num))),
      if_neg (not_le.mpr h2), if_pos h1]
  · intro h1 h2
    rw [Parquet.faixa, if_neg (by rintro rfl; norm_num at h2),
      if_neg (not_le.mpr (h2.trans (by norm_num))),
      if_neg (not_le.mpr (h2.trans (by norm_num))),
      if_neg (not_le.mpr h2), if_pos h1]
  · rintro rfl
    rw [Parquet.faixa, if_neg (by norm_num), if_neg (by norm_num),
      if_neg (by norm_num), if_neg (by norm_num), if_neg (by norm_num)]
  · rw [Parquet.faixa, if_neg (by norm_num), if_neg (by norm_num),
      if_pos (by norm_num)]

/-- C2 witness: the tier function evaluated at the boundary inputs 1 and
7/10, obtained by instantiating `C2_faixa`. -/
theorem C2_faixa_witness :
    Parquet.faixa 1 = "100%" ∧ Parquet.faixa (7 / 10) = "70% - 79%" :=
  ⟨(C2_faixa 1).1 rfl, (C2_faixa (7 / 10)).2.2.2.2.2.2⟩

/-- C3 (amended): the CSV-cache normaliser is a total function of the raw
label alone; a label normalises to internet-present (`SIM`) exactly when
its uppercasing is one of `SIM`, `YES`, `Y`, `TRUE`, and to device-active
(`ATIVO`) exactly when its uppercasing is one of `ATIVO`, `INSTALADO`,
`INSTALLED`, `ACTIVE`, `TRUE` — so every label outside the synonym tables
maps to the non-positive outcome.  The dependency column gets no synonym
table and no accent stripping: it is only uppercased (classification is by
substring containment of `MUNICIPAL`, see the counterexample). -/
theorem C3_normalizer (s : String) :
    (CsvCache.in_internet_norm s = "SIM" ↔
      (pyUpper s = "SIM" ∨ pyUpper s = "YES" ∨ pyUpper s = "Y" ∨
        pyUpper s = "TRUE"))
    ∧ (CsvCache.status_norm s = "ATIVO" ↔
      (pyUpper s = "ATIVO" ∨ pyUpper s = "INSTALADO" ∨
        pyUpper s = "INSTALLED" ∨ pyUpper s = "ACTIVE" ∨
        pyUpper s = "TRUE"))
    ∧ CsvCache.tp_dependencia_norm s = pyUpper s := by
  refine ⟨?_, ?_, rfl⟩
  · simp only [CsvCache.in_internet_norm]
    split_ifs with h1 h2 h3 <;> simp_all
  · simp only [CsvCache.status_norm]
    split_ifs with h1 h2 h3 h4 <;> simp_all

/-- C3 witness: the synonym tables in action — `yes` normalises to `SIM`
and `Installed` to `ATIVO` — by instantiating `C3_normalizer`. -/
theorem C3_normalizer_witness :
    CsvCache.in_internet_norm "yes" = "SIM" ∧
      CsvCache.status_norm "Installed" = "ATIVO" :=
  ⟨(C3_normalizer "yes").1.mpr (Or.inr (Or.inl (by decide))),
   (C3_normalizer "Installed").2.1.mpr (Or.inr (Or.inr (Or.inl (by decide))))⟩

/-- C3 counterexample: the raw dependency label `Intermunicipal` is not the
canonical label `MUNICIPAL` (nor is there any dependency synonym table),
yet the CSV-cache filter classifies the record as municipal, because the
code tests substring containment (`str.contains("MUNICIPAL")`) — an
unrecognised label promoted to a positive classification, refuting the
claim's "never to a positive classification". -/
theorem C3_counterexample :
    CsvCache.df_filtrado [medIM] = [medIM]
    ∧ pyUpper "Intermunicipal" ≠ "MUNICIPAL" := by
  exact ⟨by decide, by decide⟩

/-- C4: with no cached snapshot, `carregar_api` raises the
`UnavailableSource` error (`RuntimeError("Erro ao acessar a API SIMET")`)
exactly when all `RETRIES` network attempts fail, sleeping the fixed delay
after each failed attempt (so `RETRIES` sleeps on total failure); when it
returns data, that data is the payload of some successful attempt within
the budget, every earlier attempt having failed — it never returns partial
or empty data on failure. -/
theorem C4_retry (net : Nat → Option (List RawRecord)) (d : List RawRecord) :
    ((Parquet.carregar_api none true net).result =
        Except.error Parquet.erroAPI ↔ ∀ k < Parquet.RETRIES, net k = none)
    ∧ ((∀ k < Parquet.RETRIES, net k = none) →
        (Parquet.carregar_api none true net).sleeps = Parquet.RETRIES)
    ∧ ((Parquet.carregar_api none true net).result = Except.ok d →
        ∃ k, k < Parquet.RETRIES ∧ net k = some d ∧ ∀ j < k, net j = none) := by
  have hc : Parquet.carregar_api none true net =
      Parquet.tentativas net 0 Parquet.RETRIES := rfl
  rw [hc]
  refine ⟨?_, ?_, ?_⟩
  · rw [tentativas_error_iff net Parquet.RETRIES 0]
    constructor
    · intro h i hi
      have := h i hi
      rwa [Nat.zero_add] at this
    · intro h i hi
      rw [Nat.zero_add]
      exact h i hi
  · intro h
    apply tentativas_sleeps
    intro i hi
    rw [Nat.zero_add]
    exact h i hi
  · intro h
    obtain ⟨i, hi, hsome, hnone⟩ := tentativas_ok net Parquet.RETRIES 0 d h
    rw [Nat.zero_add] at hsome
    refine ⟨i, hi, hsome, fun j hj => ?_⟩
    have := hnone j hj
    rwa [Nat.zero_add] at this

/-- C4 witness: a network that always fails — obtained from `C4_retry` —
raises the error and sleeps once per attempt. -/
theorem C4_retry_witness :
    (Parquet.carregar_api none true (fun _ => none)).result =
      Except.error Parquet.erroAPI
    ∧ (Parquet.carregar_api none true (fun _ => none)).sleeps =
      Parquet.RETRIES :=
  ⟨(C4_retry (fun _ => none) []).1.mpr (fun _ _ => rfl),
   (C4_retry (fun _ => none) []).2.1 (fun _ _ => rfl)⟩

/-- C5: every municipality present in the output tables has a strictly
positive denominator (`groupby` only produces groups that occur in the
eligible set), so the ratio and tier — total fields of every output row —
are defined exactly for the rows present; a municipality with no eligible
school (here: none of its rows survives the filter-and-join `base`) is
absent from the output rather than tiered as `0%`. -/
theorem C5_presence (df : List RawRecord) (lista : List RegistryRow)
    (m : Nat)
    (h : (Parquet.base df lista).all (fun r => !(r.co_municipio == m)) =
      true) :
    (∀ row ∈ Parquet.processar_powerbi df lista, 0 < row.Qtd_Escolas)
    ∧ (∀ t ∈ CsvCache.temp df lista, 0 < t.total_escolas)
    ∧ m ∉ (Parquet.processar_powerbi df lista).map
        Parquet.MunRow.co_municipio := by
  refine ⟨?_, ?_, ?_⟩
  · intro row hrow
    simp only [Parquet.processar_powerbi] at hrow
    obtain ⟨m2, hm2, hb⟩ := List.mem_map.mp hrow
    obtain ⟨r, hr, hrco⟩ := List.mem_map.mp (List.mem_dedup.mp hm2)
    rw [← hb]
    exact parquet_qtd_pos _ m2 r hr hrco
  · intro t ht
    simp only [CsvCache.temp] at ht
    obtain ⟨k, hk, hkt⟩ := List.mem_map.mp ht
    obtain ⟨p, hp, hpk⟩ := List.mem_map.mp (List.mem_dedup.mp hk)
    rw [← hkt]
    show 0 < List.length (List.dedup _)
    apply List.length_pos_of_mem (a := CsvCache.id_escola p.1)
    rw [List.mem_dedup]
    refine List.mem_map.mpr ⟨p, List.mem_filter.mpr ⟨hp, ?_⟩, rfl⟩
    simp [hpk]
  · intro hm
    obtain ⟨row, hrow, hrowco⟩ := List.mem_map.mp hm
    simp only [Parquet.processar_powerbi] at hrow
    obtain ⟨m2, hm2, hb⟩ := List.mem_map.mp hrow
    obtain ⟨r, hr, hrco⟩ := List.mem_map.mp (List.mem_dedup.mp hm2)
    rw [List.all_eq_true] at h
    have hrm := h r hr
    simp only [Bool.not_eq_true', beq_eq_false_iff_ne, ne_eq] at hrm
    apply hrm
    rw [hrco]
    rw [← hb] at hrowco
    exact hrowco

/-- C5 witness: municipality 9 has no eligible school in the concrete
dataset and is missing from the output, by instantiating `C5_presence`. -/
theorem C5_presence_witness :
    ((Parquet.base [medInativa, medAtiva] [regM1]).all
        (fun r => !(r.co_municipio == 9)) = true)
    ∧ 9 ∉ (Parquet.processar_powerbi [medInativa, medAtiva] [regM1]).map
        Parquet.MunRow.co_municipio :=
  ⟨by decide,
   (C5_presence [medInativa, medAtiva] [regM1] 9 (by decide)).2.2⟩

/-- C6: inner-join semantics — a municipality code absent from the registry
never appears in either variant's output table, no matter the raw
dataset: the parquet variant drops its rows at the `isin` restriction, the
CSV-cache variant at the inner merge with the registry slice. -/
theorem C6_join (df : List RawRecord) (lista : List RegistryRow) (m : Nat)
    (h : lista.all (fun l => !(l.co_municipio == m)) = true) :
    m ∉ (Parquet.processar_powerbi df lista).map Parquet.MunRow.co_municipio
    ∧ m ∉ (CsvCache.temp df lista).map CsvCache.TempRow.co_municipio := by
  rw [List.all_eq_true] at h
  constructor
  · intro hm
    obtain ⟨row, hrow, hrowco⟩ := List.mem_map.mp hm
    simp only [Parquet.processar_powerbi] at hrow
    obtain ⟨m2, hm2, hb⟩ := List.mem_map.mp hrow
    obtain ⟨r, hr, hrco⟩ := List.mem_map.mp (List.mem_dedup.mp hm2)
    obtain ⟨-, hany⟩ := List.mem_filter.mp hr
    rw [List.any_eq_true] at hany
    obtain ⟨l, hl, hbeq⟩ := hany
    have hlm := h l hl
    simp only [Bool.not_eq_true', beq_eq_false_iff_ne, ne_eq] at hlm
    apply hlm
    rw [beq_iff_eq] at hbeq
    rw [hbeq, hrco]
    rw [← hb] at hrowco
    exact hrowco
  · intro hm
    obtain ⟨t, ht, htco⟩ := List.mem_map.mp hm
    simp only [CsvCache.temp] at ht
    obtain ⟨k, hk, hkt⟩ := List.mem_map.mp ht
    obtain ⟨p, hp, hpk⟩ := List.mem_map.mp (List.mem_dedup.mp hk)
    obtain ⟨-, h2, -⟩ := (mem_df_final _ _ p).mp hp
    have hpl : p.2 ∈ lista :=
      mem_of_mem_dedupBy (fun l => l) (CsvCache.carregar_lista_unica lista)
        p.2 h2
    have hlm := h p.2 hpl
    simp only [Bool.not_eq_true', beq_eq_false_iff_ne, ne_eq] at hlm
    apply hlm
    have h3 : (CsvCache.chave p).2.2 = m := by
      rw [hpk]
      rw [← hkt] at htco
      exact htco
    exact h3

/-- C6 witness: code 9 is not in the registry and is missing from both
outputs on a concrete dataset, by instantiating `C6_join`. -/
theorem C6_join_witness :
    9 ∉ (Parquet.processar_powerbi [medInativa, medAtiva] [regM1]).map
        Parquet.MunRow.co_municipio
    ∧ 9 ∉ (CsvCache.temp [medInativa, medAtiva] [regM1]).map
        CsvCache.TempRow.co_municipio :=
  C6_join [medInativa, medAtiva] [regM1] 9 (by decide)

/-- C7: on a registry with two rows sharing the code 2927 but differing in
the municipality-name column, the parquet loader (`carregar_lista`)
deduplicates by code as the claim states, but the CSV-cache variant —
whose loader does not deduplicate at all and whose projected slice
`df_lista_red` drops only whole-row duplicates — hands the join a table
with TWO entries for code 2927, refuting the claim for that variant. -/
theorem C7_loader_eval :
    Parquet.carregar_lista [regB1, regB2] = [regB1]
    ∧ CsvCache.df_lista_red [regB1, regB2] = [regB1, regB2]
    ∧ ((CsvCache.df_lista_red [regB1, regB2]).filter
        (fun l => l.co_municipio == 2927)).length = 2 :=
  ⟨by decide, by decide, by decide⟩

/-- C8 counterexample: neither variant raises anything on an empty raw
dataset — both aggregation pipelines silently produce a ZERO-ROW output
table (there is no `EmptyDatasetError` anywhere in the code), refuting the
claim at the concrete empty input. -/
theorem C8_counterexample :
    Parquet.processar_powerbi [] [regM1] = []
    ∧ CsvCache.temp [] [regM1] = [] :=
  ⟨rfl, rfl⟩

/-- C8 (amended): the aggregation steps are pure total functions (they are
plain functions of their inputs in this embedding), and an empty raw
dataset yields an empty output table — no error is raised. -/
theorem C8_empty (lista : List RegistryRow) :
    Parquet.processar_powerbi [] lista = []
    ∧ CsvCache.temp [] lista = [] :=
  ⟨rfl, rfl⟩

/-- C8 witness: `C8_empty` instantiated at a concrete registry. -/
theorem C8_empty_witness :
    Parquet.processar_powerbi [] [regB1] = []
    ∧ CsvCache.temp [] [regB1] = [] :=
  C8_empty [regB1]

/-- C9 counterexample: with one active eligible school in municipality 2900
and a registry holding two rows for code 2900 that differ only in the
region column, the CSV-cache variant joins the school to both rows and
counts `escolas_ativas` as a ROW count: the single output municipality
reports 1 total school but 2 active schools, violating
`active_schools ≤ total_eligible_schools`. -/
theorem C9_counterexample :
    (CsvCache.temp [medC] [regC1, regC2]).map
        (fun t => (t.total_escolas, t.escolas_ativas)) = [(1, 2)]
    ∧ (CsvCache.temp [medC] [regC1, regC2]).all
        (fun t => decide (t.escolas_ativas ≤ t.total_escolas)) = false :=
  ⟨by decide, by decide⟩

/-- C9 (amended): in the parquet variant every output row satisfies
`0 ≤ active ≤ total` unconditionally (both are distinct-school counts);
in the CSV-cache variant the same bound holds provided the reduced
registry slice has at most one row per municipality code (no duplicate
codes survive its whole-row deduplication). -/
theorem C9_bounds (df : List RawRecord) (lista : List RegistryRow)
    (hND :
      ((CsvCache.df_lista_red lista).map RegistryRow.co_municipio).Nodup) :
    (Parquet.processar_powerbi df lista).all
        (fun row => decide (row.Qtd_Escolas_Ativas ≤ row.Qtd_Escolas)) = true
    ∧ (CsvCache.temp df lista).all
        (fun t => decide (t.escolas_ativas ≤ t.total_escolas)) = true := by
  constructor
  · rw [List.all_eq_true]
    intro row hrow
    simp only [decide_eq_true_eq]
    simp only [Parquet.processar_powerbi] at hrow
    obtain ⟨m2, hm2, hb⟩ := List.mem_map.mp hrow
    rw [← hb]
    exact parquet_ativas_le_qtd _ m2
  · rw [List.all_eq_true]
    intro t ht
    simp only [decide_eq_true_eq]
    exact temp_ativas_le_total df lista hND t ht

/-- C9 witness: `C9_bounds` instantiated at a concrete dataset with a
duplicate-free registry. -/
theorem C9_bounds_witness :
    ((CsvCache.df_lista_red [regM1]).map RegistryRow.co_municipio).Nodup
    ∧ (CsvCache.temp [medInativa, medAtiva] [regM1]).all
        (fun t => decide (t.escolas_ativas ≤ t.total_escolas)) = true :=
  ⟨by decide, (C9_bounds [medInativa, medAtiva] [regM1] (by decide)).2⟩

/-- C10 counterexample: the claim's own example municipality — 6999 active
among 10000 eligible schools — has rounded percentage
`round(69.99, 2) = 69.99 < 70`, so it is NOT included in the CSV-cache
`mun_70` subset, refuting the claim's "for example 6999/10000". -/
theorem C10_counterexample :
    CsvCache.mun_70 [tRow6999] = []
    ∧ (6999 : ℚ) / 10000 < 7 / 10 := by
  constructor
  · have hp : tRow6999.percentual = 6999 / 100 := by
      show CsvCache.percentual 6999 10000 = 6999 / 100
      rw [CsvCache.percentual, CsvCache.round2]
      have harg :
          (((6999 : ℕ) : ℚ) / ((10000 : ℕ) : ℚ) * 100) * 100 = 6999 := by
        norm_num
      rw [harg, CsvCache.roundHalfEven]
      have hf : ⌊(6999 : ℚ)⌋ = 6999 := by
        rw [Int.floor_eq_iff]
        norm_num
      simp only [hf]
      norm_num
    rw [CsvCache.mun_70, List.filter_eq_nil_iff]
    intro t ht
    rw [List.mem_singleton] at ht
    subst ht
    simp only [decide_eq_true_eq, hp]
    norm_num
  · norm_num

/-- C10 (amended): threshold membership in the CSV-cache variant is decided
on the percentage rounded to two decimals, so a municipality can sit
strictly below a boundary in exact ratio yet land in the higher subset:
17499 active of 25000 eligible has exact ratio 17499/25000 = 0.69996 < 0.7
but rounded percentage 70.00, so it IS in `mun_70`; the parquet variant
compares the unrounded ratio, classifying the same municipality
`50% - 69%` and excluding it from its ≥ 70 % subset. -/
theorem C10_rounding :
    (17499 : ℚ) / 25000 < 7 / 10
    ∧ CsvCache.percentual 17499 25000 = 70
    ∧ CsvCache.mun_70 [tRow17499] = [tRow17499]
    ∧ Parquet.municipios_70_mais [mRow17499] = []
    ∧ Parquet.faixa ((17499 : ℚ) / 25000) = "50% - 69%" := by
  have hp : CsvCache.percentual 17499 25000 = 70 := by
    rw [CsvCache.percentual, CsvCache.round2]
    have harg :
        (((17499 : ℕ) : ℚ) / ((25000 : ℕ) : ℚ) * 100) * 100 = 34998 / 5 := by
      norm_num
    rw [harg, CsvCache.roundHalfEven]
    have hf : ⌊(34998 : ℚ) / 5⌋ = 6999 := by
      rw [Int.floor_eq_iff]
      norm_num
    simp only [hf]
    norm_num
  refine ⟨by norm_num, hp, ?_, ?_, ?_⟩
  · rw [CsvCache.mun_70,
      List.filter_cons_of_pos (by
        show decide ((70 : ℚ) ≤ tRow17499.percentual) = true
        apply decide_eq_true
        show (70 : ℚ) ≤ CsvCache.percentual 17499 25000
        rw [hp]),
      List.filter_nil]
  · rw [Parquet.municipios_70_mais,
      List.filter_cons_of_neg (by
        show ¬(decide ((0.7 : ℚ) ≤ mRow17499.Perc_Escolas_Ativas) = true)
        rw [decide_eq_true_eq]
        show ¬((0.7 : ℚ) ≤ (17499 : ℚ) / 25000)
        norm_num),
      List.filter_nil]
  · rw [Parquet.faixa, if_neg (by norm_num), if_neg (by norm_num),
      if_neg (by norm_num), if_pos (by norm_num)]
